import Mathlib

/-!
Shallow embedding of the pod-selection and disruption code of
`chaosk8s` (files `chaosk8s/pod/actions.py` and
`chaosk8s/deployment/probes.py`), together with proofs about the
properties its specification states.

Conventions of the embedding:
* machine integers are `Int`/`Nat`;
* fallible code returns `Except String _` carrying the exception message;
* calls against the cluster boundary are logged explicitly in a
  `List ClusterCall`, the fetched candidate list being an input;
* `random.sample` is an abstract function argument `sampler`, constrained
  in theorems by the guarantees `random.sample` documents (a sample of the
  requested size whose elements come from the population);
* Python's `str()` of a client model object is an abstract function
  argument `objStr`.
-/

namespace ChaosK8s

/-! ### Data model: fetched pods (the `V1Pod` objects returned by the list call) -/

/-- Metadata of a fetched pod: its name and creation timestamp
(`metadata.name`, `metadata.creation_timestamp`). Timestamps are modelled
as naturals; only their order matters to the code. -/
structure PodMeta where
  name : String
  creationTimestamp : Nat
  deriving DecidableEq

/-- The part of a fetched pod's spec the code reads: `spec.node_name`. -/
structure PodSpecInfo where
  nodeName : Option String
  deriving DecidableEq

/-- A fetched pod, as consumed by `_select_pods` and `kill_main_process`. -/
structure Pod where
  metadata : PodMeta
  spec : PodSpecInfo
  deriving DecidableEq

/-! ### Regular expressions: embedding of Python `re` for the core fragment

`_select_pods` compiles `name_pattern` with `re.compile` and keeps pods for
which `pattern.match(name)` is truthy.  `re.match` attempts a match only at
the beginning of the string; the match may end before the end of the
string.  We embed regular expressions as an AST with Brzozowski-derivative
matching and model `pattern.match(s)` as: some prefix of `s` is in the
language of the pattern. -/

inductive Regex where
  | emptyset
  | epsilon
  | char (c : Char)
  | anyChar
  | concat (r1 r2 : Regex)
  | alt (r1 r2 : Regex)
  | star (r : Regex)
  deriving DecidableEq

/-- Does the regex accept the empty string? -/
def Regex.nullable : Regex → Bool
  | .emptyset => false
  | .epsilon => true
  | .char _ => false
  | .anyChar => false
  | .concat r1 r2 => r1.nullable && r2.nullable
  | .alt r1 r2 => r1.nullable || r2.nullable
  | .star _ => true

/-- Brzozowski derivative of a regex by one character. -/
def Regex.deriv : Regex → Char → Regex
  | .emptyset, _ => .emptyset
  | .epsilon, _ => .emptyset
  | .char c, a => if c = a then .epsilon else .emptyset
  | .anyChar, _ => .epsilon
  | .concat r1 r2, a =>
      if r1.nullable then .alt (.concat (r1.deriv a) r2) (r2.deriv a)
      else .concat (r1.deriv a) r2
  | .alt r1 r2, a => .alt (r1.deriv a) (r2.deriv a)
  | .star r, a => .concat (r.deriv a) (.star r)

/-- Python `pattern.match(s)` semantics (anchored at position 0, free end):
true iff the regex accepts some prefix of `s`. -/
def Regex.matchAtStart (r : Regex) : List Char → Bool
  | [] => r.nullable
  | c :: rest => r.nullable || (r.deriv c).matchAtStart rest

/-- The regex accepting exactly one given character sequence. -/
def Regex.literalList (w : List Char) : Regex :=
  w.foldr (fun c acc => .concat (.char c) acc) .epsilon

/-- The regex denoted by a pattern string with no metacharacters
(plain-text pattern such as `"web"`). -/
def Regex.literal (w : String) : Regex :=
  Regex.literalList w.data

/-! ### Cluster boundary -/

/-- Resource requests/limits of the pumba container (lines 95-103). -/
structure V1ResourceList where
  cpu : String
  memory : String
  deriving DecidableEq

structure V1ResourceRequirements where
  requests : V1ResourceList
  limits : V1ResourceList
  deriving DecidableEq

structure V1VolumeMount where
  mountPath : String
  name : String
  deriving DecidableEq

/-- The client's `V1Container` model as built by `kill_main_process`.
Fields other than `name` start out unset (`None`) and are assigned one by
one, hence the `Option` types. -/
structure V1Container where
  name : String
  image : Option String
  imagePullPolicy : Option String
  args : Option (List String)
  resources : Option V1ResourceRequirements
  volumeMounts : Option (List V1VolumeMount)
  deriving DecidableEq

/-- The Python local variable `container` inside `kill_main_process`: it is
bound to the `container : str` parameter on entry and REBOUND to a
`V1Container` object at line 89 (`container = client.V1Container(...)`),
so from then on it holds an object, not the caller's string. -/
inductive ContainerVar where
  | ofString (s : String)
  | ofObj (c : V1Container)
  deriving DecidableEq

/-- What `"%s" % container` produces: the string itself, or `str()` of the
object (the latter kept abstract as `objStr`). -/
def ContainerVar.format (objStr : V1Container → String) : ContainerVar → String
  | .ofString s => s
  | .ofObj c => objStr c

/-- The labels dict built at lines 81-87 for the pumba pod. -/
structure PumbaLabels where
  app : String
  comGaiaadmPumba : String
  container : ContainerVar
  pod : String
  ns : String
  deriving DecidableEq

structure V1HostPathVolumeSource where
  path : String
  deriving DecidableEq

structure V1Volume where
  name : String
  hostPath : V1HostPathVolumeSource
  deriving DecidableEq

/-- The client's `V1PodSpec` model. `kill_main_process` never assigns its
`node_name`, so in every companion pod it stays `none`. -/
structure V1PodSpec where
  containers : List V1Container
  restartPolicy : Option String
  volumes : Option (List V1Volume)
  nodeName : Option String
  deriving DecidableEq

structure V1ObjectMeta where
  name : String
  labels : Option PumbaLabels
  deriving DecidableEq

/-- The client's `V1Pod` model for the companion (pumba) pod.
`dynNodeName` models the dynamically added Python attribute written by
line 88 (`pumba_pod.node_name = pod.spec.node_name`): `V1Pod` has no
`node_name` field in its serialization map, so that attribute never
reaches the manifest sent to the cluster; only `spec.nodeName` would. -/
structure V1Pod where
  metadata : V1ObjectMeta
  spec : Option V1PodSpec
  dynNodeName : Option String
  deriving DecidableEq

/-- One request issued against the cluster API. -/
inductive ClusterCall where
  | listPods (ns : String) (labelSelector : Option String)
  | deletePod (name ns : String) (gracePeriodSeconds : Option Int)
  | createPod (ns : String) (pod : V1Pod)
  deriving DecidableEq

/-- The list call issued at lines 223-230: with a (truthy) label selector
when one is given, otherwise a plain namespaced list. -/
def fetchCalls (ns : String) (label_selector : Option String) : List ClusterCall :=
  match label_selector with
  | some s => if s ≠ "" then [ClusterCall.listPods ns (some s)] else [ClusterCall.listPods ns none]
  | none => [ClusterCall.listPods ns none]

/-! ### The selection pipeline (`_select_pods`, lines 177-256) -/

/-- The sort key used at lines 259-260. -/
def _sort_by_pod_creation_timestamp (pod : Pod) : Nat :=
  pod.metadata.creationTimestamp

/-- The comparison `pods.sort(key=_sort_by_pod_creation_timestamp)` sorts
by: non-decreasing key. -/
def byCreation (a b : Pod) : Prop :=
  _sort_by_pod_creation_timestamp a ≤ _sort_by_pod_creation_timestamp b

instance : DecidableRel byCreation :=
  fun a b =>
    Nat.decLe (_sort_by_pod_creation_timestamp a) (_sort_by_pod_creation_timestamp b)

instance : IsTotal Pod byCreation :=
  ⟨fun a b =>
    Nat.le_total (_sort_by_pod_creation_timestamp a) (_sort_by_pod_creation_timestamp b)⟩

instance : IsTrans Pod byCreation :=
  ⟨fun _ _ _ => Nat.le_trans⟩

/-- Lines 232-241: when a name pattern is given, keep the pods whose name
`pattern.match`es (in fetch order); otherwise pass the list through. -/
def filterByName (name_pattern : Option Regex) (items : List Pod) : List Pod :=
  match name_pattern with
  | some pattern => items.filter (fun p => pattern.matchAtStart p.metadata.name.data)
  | none => items

/-- Lines 243-244: `pods.sort(key=...)` when order is `oldest`; Python's
sort is stable, which `List.insertionSort` with this comparison realizes. -/
def orderPods (order : String) (pods : List Pod) : List Pod :=
  if order = "oldest" then pods.insertionSort byCreation else pods

/-- `math.ceil(a / 100)` for an integer `a` (line 247): the ceiling of the
exact fraction `a / 100`.  (Python evaluates `a / 100` in double precision
first; the correctly rounded quotient has the same ceiling as the exact
one for every count reachable here, so the embedding uses the exact
ceiling, written via Euclidean division.) -/
def mathCeil100 (a : Int) : Int :=
  -(-a / 100)

/-- The quantity after mode resolution (lines 246-247): the requested
count for `fixed`, the ceiling percentage of the candidate count for
`percentage`. -/
def resolvedQty (mode : String) (qty : Int) (n : Nat) : Int :=
  if mode = "percentage" then mathCeil100 (qty * n) else qty

/-- Lines 245-255 (the `not all` branch): resolve the quantity, cap it at
the candidate count, then either `random.sample` (abstract `sampler`) or
take the prefix `pods[:qty]`. -/
def applyQuantity (sampler : List Pod → Nat → List Pod) (rand : Bool)
    (mode : String) (qty : Int) (pods : List Pod) : List Pod :=
  let qty1 : Int := resolvedQty mode qty pods.length
  let qty2 : Int := min qty1 (pods.length : Int)
  if rand then sampler pods qty2.toNat else pods.take qty2.toNat

/-- `_select_pods` (lines 177-256).  The fetched pod list is the input
`fetched`; the compiled name pattern is the input `name_pattern` (Python's
falsy empty pattern is `none`).  Returns the selection (or the raised
`ActivityFailed` message) together with the log of cluster calls made. -/
def _select_pods (sampler : List Pod → Nat → List Pod)
    (label_selector : Option String) (name_pattern : Option Regex)
    (all rand : Bool) (mode : String) (qty : Int) (ns : String)
    (order : String) (fetched : List Pod) :
    Except String (List Pod) × List ClusterCall :=
  if qty < 0 then
    (.error ("Cannot terminate pods. Quantity '" ++ toString qty ++ "' is negative."), [])
  else if mode ∉ (["fixed", "percentage"] : List String) then
    (.error ("Cannot terminate pods. Mode '" ++ mode ++ "' is invalid."), [])
  else if order ∉ (["alphabetic", "oldest"] : List String) then
    (.error ("Cannot terminate pods. Order '" ++ order ++ "' is invalid."), [])
  else
    let pods := orderPods order (filterByName name_pattern fetched)
    (.ok (if all then pods else applyQuantity sampler rand mode qty pods),
     fetchCalls ns label_selector)

/-! ### `terminate_pods` (lines 118-174) -/

def terminate_pods (sampler : List Pod → Nat → List Pod)
    (label_selector : Option String) (name_pattern : Option Regex)
    (all rand : Bool) (mode : String) (qty : Int) (grace_period : Int)
    (ns : String) (order : String) (fetched : List Pod) :
    Except String Unit × List ClusterCall :=
  match _select_pods sampler label_selector name_pattern all rand mode qty ns order fetched with
  | (.error e, calls) => (.error e, calls)
  | (.ok pods, calls) =>
      let body : Option Int := if grace_period ≥ 0 then some grace_period else none
      (.ok (), calls ++ pods.map (fun p => ClusterCall.deletePod p.metadata.name ns body))

/-! ### `kill_main_process` (lines 16-115) -/

/-- The state of the `V1Container` object at the moment line 93 evaluates
`"re2:^k8s_%s_%s_%s" % (container, ...)`: name, image and pull policy are
set (lines 89-91); `args`, `resources`, `volumeMounts` are still unset
(they are assigned at lines 93, 104, 107). -/
def pumbaContainerAtFormat (pumba_image : String) : V1Container :=
  { name := "pumba", image := some pumba_image, imagePullPolicy := some "Always",
    args := none, resources := none, volumeMounts := none }

/-- The container-match argument built at lines 93-94.  Because the local
`container` was rebound at line 89, the `%s` interpolates `str()` of the
partially built `V1Container` object, not the caller's `container`
parameter. -/
def companionArgString (objStr : V1Container → String) (pumba_image ns : String)
    (pod : Pod) : String :=
  "re2:^k8s_" ++ (ContainerVar.ofObj (pumbaContainerAtFormat pumba_image)).format objStr
    ++ "_" ++ pod.metadata.name ++ "_" ++ ns

/-- The fully built pumba container at the end of one loop iteration
(lines 89-107). -/
def builtContainer (objStr : V1Container → String) (signal pumba_image ns : String)
    (pod : Pod) : V1Container :=
  { pumbaContainerAtFormat pumba_image with
    args := some ["--log-level", "debug", "kill", "--signal", signal,
                  companionArgString objStr pumba_image ns pod],
    resources := some ⟨⟨"10m", "5M"⟩, ⟨"100m", "20M"⟩⟩,
    volumeMounts := some [⟨"/var/run/docker.sock", "dockersocket"⟩] }

/-- The companion (pumba) pod built by one loop iteration (lines 79-113).
`cvar` is the value held by the Python variable `container` when the
labels dict is built at line 84 (the string parameter on the first
iteration, the previous iteration's `V1Container` object afterwards).
Line 88 writes the target's node name into a dynamic attribute of the
`V1Pod` object (`dynNodeName`); the `V1PodSpec` built at lines 108-112
never receives a `node_name`, so `spec.nodeName` is `none`. -/
def companionPod (objStr : V1Container → String) (signal pumba_image ns : String)
    (i : Nat) (cvar : ContainerVar) (pod : Pod) : V1Pod :=
  { metadata :=
      { name := "pumba-pod-" ++ toString i,
        labels := some
          { app := "pumba", comGaiaadmPumba := "true", container := cvar,
            pod := pod.metadata.name, ns := ns } },
    spec := some
      { containers := [builtContainer objStr signal pumba_image ns pod],
        restartPolicy := some "Never",
        volumes := some [⟨"dockersocket", ⟨"/var/run/docker.sock"⟩⟩],
        nodeName := none },
    dynNodeName := pod.spec.nodeName }

/-- The `for pod in pods_to_kill` loop of `kill_main_process`
(lines 77-115): one `create_namespaced_pod` call per selected pod, with
`i` incremented each iteration and the `container` variable carrying over
the object built in the previous iteration. -/
def pumbaLoop (objStr : V1Container → String) (signal pumba_image ns : String) :
    Nat → ContainerVar → List Pod → List ClusterCall
  | _, _, [] => []
  | i, cvar, pod :: rest =>
      ClusterCall.createPod ns (companionPod objStr signal pumba_image ns i cvar pod)
        :: pumbaLoop objStr signal pumba_image ns (i + 1)
             (ContainerVar.ofObj (builtContainer objStr signal pumba_image ns pod)) rest

/-- The create calls issued by `kill_main_process` for a given list of
selected pods (`i` starts at 0, `container` starts as the parameter). -/
def kill_main_process_calls (objStr : V1Container → String)
    (container signal pumba_image ns : String) (pods_to_kill : List Pod) :
    List ClusterCall :=
  pumbaLoop objStr signal pumba_image ns 0 (ContainerVar.ofString container) pods_to_kill

/-- `kill_main_process` end to end: select, then dispatch companions. -/
def kill_main_process (objStr : V1Container → String)
    (sampler : List Pod → Nat → List Pod)
    (label_selector : Option String) (name_pattern : Option Regex)
    (all rand : Bool) (mode : String) (qty : Int) (ns : String)
    (order : String) (container signal pumba_image : String)
    (fetched : List Pod) : Except String Unit × List ClusterCall :=
  match _select_pods sampler label_selector name_pattern all rand mode qty ns order fetched with
  | (.error e, calls) => (.error e, calls)
  | (.ok pods, calls) =>
      (.ok (), calls ++ kill_main_process_calls objStr container signal pumba_image ns pods)

/-- Name of the pod created by a cluster call (empty string for calls
that create nothing). -/
def callPodName : ClusterCall → String
  | .createPod _ p => p.metadata.name
  | _ => ""

/-- The `spec.nodeName` carried by the pod manifest of a create call
(outer `none` for other calls or a pod without a spec). -/
def callSpecNodeName : ClusterCall → Option (Option String)
  | .createPod _ p => p.spec.map (fun sp => sp.nodeName)
  | _ => none

/-! ### `deployment_available_and_healthy` (`chaosk8s/deployment/probes.py`) -/

structure DeploymentStatus where
  availableReplicas : Option Int
  deriving DecidableEq

structure DeploymentSpec where
  replicas : Option Int
  deriving DecidableEq

structure Deployment where
  spec : DeploymentSpec
  status : DeploymentStatus
  deriving DecidableEq

/-- The `for d in ret.items` loop of the probe (lines 41-47): raise on the
first deployment whose available replicas differ from its desired
replicas. -/
def checkReplicas (name : String) : List Deployment → Except String Bool
  | [] => .ok true
  | d :: rest =>
      if d.status.availableReplicas ≠ d.spec.replicas then
        .error ("deployment '" ++ name ++ "' is not healthy")
      else checkReplicas name rest

/-- `deployment_available_and_healthy` (lines 13-49), the fetched
deployment list being the input: raise when nothing matched, raise on an
unhealthy deployment, return `True` otherwise. -/
def deployment_available_and_healthy (name : String) (fetched : List Deployment) :
    Except String Bool :=
  if fetched.isEmpty then .error ("deployment '" ++ name ++ "' was not found")
  else checkReplicas name fetched

/-- A pod with a given name (used for concrete test vectors). -/
def podNamed (name : String) : Pod :=
  ⟨⟨name, 0⟩, ⟨none⟩⟩

/-- A pod with a given name, creation timestamp and node. -/
def mkPod (name : String) (ts : Nat) (node : Option String) : Pod :=
  ⟨⟨name, ts⟩, ⟨node⟩⟩

/-! ## Lemmas about the regex matcher -/

theorem matchAtStart_emptyset : ∀ s : List Char, Regex.emptyset.matchAtStart s = false
  | [] => rfl
  | _ :: rest => by
    simp [Regex.matchAtStart, Regex.nullable, Regex.deriv, matchAtStart_emptyset rest]

theorem matchAtStart_epsilon : ∀ s : List Char, Regex.epsilon.matchAtStart s = true
  | [] => rfl
  | _ :: _ => by simp [Regex.matchAtStart, Regex.nullable]

theorem matchAtStart_alt :
    ∀ (r1 r2 : Regex) (s : List Char),
      (Regex.alt r1 r2).matchAtStart s = (r1.matchAtStart s || r2.matchAtStart s)
  | _, _, [] => by simp [Regex.matchAtStart, Regex.nullable]
  | r1, r2, c :: rest => by
    simp only [Regex.matchAtStart, Regex.nullable, Regex.deriv,
      matchAtStart_alt (r1.deriv c) (r2.deriv c) rest]
    cases r1.nullable <;> cases r2.nullable <;>
      cases (r1.deriv c).matchAtStart rest <;> cases (r2.deriv c).matchAtStart rest <;> rfl

theorem matchAtStart_concat_emptyset :
    ∀ (r : Regex) (s : List Char), (Regex.concat .emptyset r).matchAtStart s = false
  | _, [] => rfl
  | r, _ :: rest => by
    simp [Regex.matchAtStart, Regex.nullable, Regex.deriv, matchAtStart_concat_emptyset r rest]

theorem matchAtStart_concat_epsilon (r : Regex) :
    ∀ s : List Char, (Regex.concat .epsilon r).matchAtStart s = r.matchAtStart s
  | [] => by simp [Regex.matchAtStart, Regex.nullable]
  | c :: rest => by
    simp [Regex.matchAtStart, Regex.nullable, Regex.deriv, matchAtStart_alt,
      matchAtStart_concat_emptyset]

/-- A plain-text pattern, matched at position 0 with a free end, is exactly
a prefix test. -/
theorem matchAtStart_literalList :
    ∀ (w s : List Char), (Regex.literalList w).matchAtStart s = w.isPrefixOf s
  | [], s => by simpa [Regex.literalList] using matchAtStart_epsilon s
  | _ :: _, [] => by simp [Regex.literalList, Regex.matchAtStart, Regex.nullable]
  | c :: w, d :: rest => by
    have ih := matchAtStart_literalList w rest
    simp only [Regex.literalList] at ih
    by_cases hcd : c = d
    · subst hcd
      simp [Regex.literalList, Regex.matchAtStart, Regex.nullable, Regex.deriv,
        matchAtStart_concat_epsilon, List.isPrefixOf, ih]
    · simp [Regex.literalList, Regex.matchAtStart, Regex.nullable, Regex.deriv,
        if_neg hcd, matchAtStart_concat_emptyset, List.isPrefixOf, hcd]

/-! ## Stability of the `oldest` ordering -/

theorem filter_ts_orderedInsert (t : Nat) (x : Pod) :
    ∀ l : List Pod,
      (List.orderedInsert byCreation x l).filter
          (fun p => _sort_by_pod_creation_timestamp p == t)
        = (x :: l).filter (fun p => _sort_by_pod_creation_timestamp p == t)
  | [] => rfl
  | y :: l => by
    by_cases hxy : byCreation x y
    · simp [List.orderedInsert, hxy]
    · have hlt : _sort_by_pod_creation_timestamp y < _sort_by_pod_creation_timestamp x := by
        simpa [byCreation, Nat.not_le] using hxy
      have ih := filter_ts_orderedInsert t x l
      simp only [List.orderedInsert, if_neg hxy]
      by_cases hx : _sort_by_pod_creation_timestamp x = t
      · have hy : ¬ _sort_by_pod_creation_timestamp y = t := by omega
        simp [List.filter_cons, hx, hy, ih]
      · by_cases hy : _sort_by_pod_creation_timestamp y = t
        · simp [List.filter_cons, hx, hy, ih]
        · simp [List.filter_cons, hx, hy, ih]

theorem filter_ts_insertionSort (t : Nat) :
    ∀ l : List Pod,
      (l.insertionSort byCreation).filter (fun p => _sort_by_pod_creation_timestamp p == t)
        = l.filter (fun p => _sort_by_pod_creation_timestamp p == t)
  | [] => rfl
  | x :: l => by
    have ih := filter_ts_insertionSort t l
    rw [List.insertionSort, filter_ts_orderedInsert]
    simp [List.filter_cons, ih]

/-! ## Arithmetic of the percentage resolution -/

/-- `mathCeil100 a` is the ceiling of the exact rational fraction `a / 100`. -/
theorem mathCeil100_eq_ceil (a : Int) : mathCeil100 a = ⌈(a : ℚ) / 100⌉ := by
  have h : 100 * (-a / 100) + -a % 100 = -a := Int.ediv_add_emod (-a) 100
  have hr0 : 0 ≤ -a % 100 := Int.emod_nonneg (-a) (by norm_num)
  have hr1 : -a % 100 < 100 := Int.emod_lt_of_pos (-a) (by norm_num)
  have hQ : (100 : ℚ) * ((-a / 100 : Int) : ℚ) + ((-a % 100 : Int) : ℚ) = -(a : ℚ) := by
    exact_mod_cast congrArg (fun z : Int => (z : ℚ)) h
  have hr0Q : (0 : ℚ) ≤ ((-a % 100 : Int) : ℚ) := by exact_mod_cast hr0
  have hr1Q : ((-a % 100 : Int) : ℚ) < 100 := by exact_mod_cast hr1
  symm
  rw [Int.ceil_eq_iff, mathCeil100]
  push_cast
  constructor
  · rw [lt_div_iff₀ (by norm_num : (0 : ℚ) < 100)]
    linarith
  · rw [div_le_iff₀ (by norm_num : (0 : ℚ) < 100)]
    linarith

theorem mathCeil100_nonneg {a : Int} (ha : 0 ≤ a) : 0 ≤ mathCeil100 a := by
  unfold mathCeil100
  omega

theorem le_mathCeil100 {a n : Int} (h : 100 * n ≤ a) : n ≤ mathCeil100 a := by
  unfold mathCeil100
  omega

theorem resolvedQty_nonneg (mode : String) {qty : Int} (n : Nat) (hq : 0 ≤ qty) :
    0 ≤ resolvedQty mode qty n := by
  unfold resolvedQty
  split
  · exact mathCeil100_nonneg (mul_nonneg hq (Int.ofNat_nonneg n))
  · exact hq

/-! ## Claim theorems -/

/-- C5: with mode = percentage, the resolved quantity is the ceiling of
the exact rational fraction `q·n/100` (not a truncated value), and the
code then caps it at `n`; concretely `q = 10, n = 7` resolves to 1,
`q = 1, n = 1` resolves to 1, and `n = 0` resolves to 0. -/
theorem C5_percentage_exact_ceiling :
    (∀ (q : Int) (n : Nat),
        resolvedQty "percentage" q n = ⌈((q * n : Int) : ℚ) / 100⌉
        ∧ min (resolvedQty "percentage" q n) (n : Int)
            = min ⌈((q * n : Int) : ℚ) / 100⌉ (n : Int))
    ∧ resolvedQty "percentage" 10 7 = 1
    ∧ min (resolvedQty "percentage" 10 7) ((7 : Nat) : Int) = 1
    ∧ resolvedQty "percentage" 1 1 = 1
    ∧ min (resolvedQty "percentage" 1 1) ((1 : Nat) : Int) = 1
    ∧ (∀ q : Int, resolvedQty "percentage" q 0 = 0) := by
  have hbase : ∀ (q : Int) (n : Nat),
      resolvedQty "percentage" q n = ⌈((q * n : Int) : ℚ) / 100⌉ := by
    intro q n
    rw [resolvedQty, if_pos rfl, mathCeil100_eq_ceil]
  refine ⟨fun q n => ⟨hbase q n, by rw [hbase q n]⟩, by decide, by decide, by decide, by decide,
    fun q => ?_⟩
  rw [resolvedQty, if_pos rfl]
  simp [mathCeil100]

/-- C4: a negative quantity, an unknown mode, or an unknown order makes
the selection fail with the ActivityFailed message before any cluster
call: `_select_pods`, `terminate_pods` and `kill_main_process` log no
cluster call and return the error. -/
theorem C4_validation_before_any_call
    (sampler : List Pod → Nat → List Pod) (label_selector : Option String)
    (name_pattern : Option Regex) (all rand : Bool) (mode : String) (qty : Int)
    (grace_period : Int) (ns order : String)
    (objStr : V1Container → String) (container signal pumba_image : String)
    (fetched : List Pod)
    (h : qty < 0 ∨ mode ∉ (["fixed", "percentage"] : List String)
         ∨ order ∉ (["alphabetic", "oldest"] : List String)) :
    (∃ msg, _select_pods sampler label_selector name_pattern all rand mode qty ns order fetched
        = (.error msg, []))
    ∧ (∃ msg, terminate_pods sampler label_selector name_pattern all rand mode qty
          grace_period ns order fetched = (.error msg, []))
    ∧ (∃ msg, kill_main_process objStr sampler label_selector name_pattern all rand mode qty
          ns order container signal pumba_image fetched = (.error msg, [])) := by
  obtain ⟨msg, hmsg⟩ :
      ∃ msg, _select_pods sampler label_selector name_pattern all rand mode qty ns order fetched
        = (.error msg, []) := by
    unfold _select_pods
    rcases h with h1 | h2 | h3
    · rw [if_pos h1]; exact ⟨_, rfl⟩
    · by_cases h1 : qty < 0
      · rw [if_pos h1]; exact ⟨_, rfl⟩
      · rw [if_neg h1, if_pos h2]; exact ⟨_, rfl⟩
    · by_cases h1 : qty < 0
      · rw [if_pos h1]; exact ⟨_, rfl⟩
      · rw [if_neg h1]
        by_cases h2 : mode ∉ (["fixed", "percentage"] : List String)
        · rw [if_pos h2]; exact ⟨_, rfl⟩
        · rw [if_neg h2, if_pos h3]; exact ⟨_, rfl⟩
  refine ⟨⟨msg, hmsg⟩, ⟨msg, ?_⟩, ⟨msg, ?_⟩⟩
  · rw [terminate_pods, hmsg]
  · rw [kill_main_process, hmsg]

/-- The orderer always returns a permutation of its input. -/
theorem orderPods_perm (order : String) (pods : List Pod) :
    (orderPods order pods).Perm pods := by
  unfold orderPods
  split
  · exact List.perm_insertionSort byCreation pods
  · exact List.Perm.refl pods

/-- Length of the quantity stage: exactly the resolved quantity capped at
the candidate count (for a sampler honouring `random.sample`'s length
guarantee). -/
theorem applyQuantity_length (sampler : List Pod → Nat → List Pod)
    (hlen : ∀ l k, k ≤ l.length → (sampler l k).length = k)
    (rand : Bool) (mode : String) {qty : Int} (pods : List Pod) (hq : 0 ≤ qty) :
    ((applyQuantity sampler rand mode qty pods).length : Int)
      = min (resolvedQty mode qty pods.length) (pods.length : Int) := by
  have h0 : 0 ≤ resolvedQty mode qty pods.length := resolvedQty_nonneg mode _ hq
  have hmin0 : 0 ≤ min (resolvedQty mode qty pods.length) (pods.length : Int) :=
    le_min h0 (Int.ofNat_nonneg _)
  have htn : (min (resolvedQty mode qty pods.length) (pods.length : Int)).toNat ≤ pods.length :=
    Int.toNat_le.mpr (min_le_right _ _)
  unfold applyQuantity
  cases rand
  · simp only [Bool.false_eq_true, if_false]
    rw [List.length_take]
    rw [Nat.min_eq_left htn]
    exact Int.toNat_of_nonneg hmin0
  · simp only [if_true]
    rw [hlen _ _ htn]
    exact Int.toNat_of_nonneg hmin0

/-- Every pod kept by the quantity stage comes from its input (for a
sampler honouring `random.sample`'s population guarantee). -/
theorem applyQuantity_subset (sampler : List Pod → Nat → List Pod)
    (hmem : ∀ l k x, x ∈ sampler l k → x ∈ l)
    (rand : Bool) (mode : String) (qty : Int) (pods : List Pod) :
    ∀ x ∈ applyQuantity sampler rand mode qty pods, x ∈ pods := by
  unfold applyQuantity
  cases rand
  · intro x hx
    exact List.mem_of_mem_take (by simpa using hx)
  · intro x hx
    exact hmem _ _ _ (by simpa using hx)

/-- C1: for valid criteria, the selection succeeds; its length never
exceeds the number of name-filtered candidates; when `all` is false its
length is exactly the resolved quantity capped at the candidate count;
and every returned pod is one of the name-filtered candidates. -/
theorem C1_selection_bounded (sampler : List Pod → Nat → List Pod)
    (hlen : ∀ l k, k ≤ l.length → (sampler l k).length = k)
    (hmem : ∀ l k x, x ∈ sampler l k → x ∈ l)
    (label_selector : Option String) (name_pattern : Option Regex)
    (all rand : Bool) (mode : String) (qty : Int) (ns order : String)
    (fetched : List Pod)
    (hq : 0 ≤ qty) (hm : mode ∈ (["fixed", "percentage"] : List String))
    (ho : order ∈ (["alphabetic", "oldest"] : List String)) :
    ∃ out,
      (_select_pods sampler label_selector name_pattern all rand mode qty ns order fetched).1
        = .ok out
      ∧ out.length ≤ (filterByName name_pattern fetched).length
      ∧ (all = false →
          (out.length : Int)
            = min (resolvedQty mode qty (filterByName name_pattern fetched).length)
                  ((filterByName name_pattern fetched).length : Int))
      ∧ ∀ x ∈ out, x ∈ filterByName name_pattern fetched := by
  have hperm := orderPods_perm order (filterByName name_pattern fetched)
  have hlenEq : (orderPods order (filterByName name_pattern fetched)).length
      = (filterByName name_pattern fetched).length := hperm.length_eq
  unfold _select_pods
  rw [if_neg (not_lt.mpr hq), if_neg (not_not_intro hm), if_neg (not_not_intro ho)]
  cases all
  · refine ⟨applyQuantity sampler rand mode qty
        (orderPods order (filterByName name_pattern fetched)), rfl, ?_, ?_, ?_⟩
    · have := applyQuantity_length sampler hlen rand mode
        (orderPods order (filterByName name_pattern fetched)) hq
      rw [hlenEq] at this
      omega
    · intro _
      have := applyQuantity_length sampler hlen rand mode
        (orderPods order (filterByName name_pattern fetched)) hq
      rw [hlenEq] at this
      exact this
    · intro x hx
      exact hperm.mem_iff.mp
        (applyQuantity_subset sampler hmem rand mode qty _ x hx)
  · refine ⟨orderPods order (filterByName name_pattern fetched), rfl, ?_, ?_, ?_⟩
    · omega
    · intro hcon
      exact absurd hcon (by simp)
    · intro x hx
      exact hperm.mem_iff.mp hx

/-- Witness for C1 at a concrete input. -/
theorem C1_selection_witness :
    ∃ out,
      (_select_pods (fun l k => l.take k) none none false false "fixed" 1
          "default" "alphabetic" [podNamed "a", podNamed "b"]).1 = .ok out
      ∧ out.length ≤ (filterByName none [podNamed "a", podNamed "b"]).length
      ∧ (false = false →
          (out.length : Int)
            = min (resolvedQty "fixed" 1 (filterByName none [podNamed "a", podNamed "b"]).length)
                  ((filterByName none [podNamed "a", podNamed "b"]).length : Int))
      ∧ ∀ x ∈ out, x ∈ filterByName none [podNamed "a", podNamed "b"] :=
  C1_selection_bounded (fun l k => l.take k)
    (fun l k hk => by rw [List.length_take]; exact Nat.min_eq_left hk)
    (fun l k x hx => List.mem_of_mem_take hx)
    none none false false "fixed" 1 "default" "alphabetic" [podNamed "a", podNamed "b"]
    (by norm_num) (by decide) (by decide)

/-- C7: with `all = true` and valid criteria, the selection returns every
name-filtered (and, for `oldest`, reordered) candidate, independently of
`quantity`, `mode` and `random` (and of the sampler). -/
theorem C7_all_overrides (sampler sampler' : List Pod → Nat → List Pod)
    (label_selector : Option String) (name_pattern : Option Regex)
    (rand rand' : Bool) (mode mode' : String) (qty qty' : Int) (ns order : String)
    (fetched : List Pod)
    (hq : 0 ≤ qty) (hq' : 0 ≤ qty')
    (hm : mode ∈ (["fixed", "percentage"] : List String))
    (hm' : mode' ∈ (["fixed", "percentage"] : List String))
    (ho : order ∈ (["alphabetic", "oldest"] : List String)) :
    _select_pods sampler label_selector name_pattern true rand mode qty ns order fetched
      = (.ok (orderPods order (filterByName name_pattern fetched)),
         fetchCalls ns label_selector)
    ∧ _select_pods sampler label_selector name_pattern true rand mode qty ns order fetched
      = _select_pods sampler' label_selector name_pattern true rand' mode' qty' ns order
          fetched := by
  have base : ∀ (s : List Pod → Nat → List Pod) (r : Bool) (m : String) (q : Int),
      0 ≤ q → m ∈ (["fixed", "percentage"] : List String) →
      _select_pods s label_selector name_pattern true r m q ns order fetched
        = (.ok (orderPods order (filterByName name_pattern fetched)),
           fetchCalls ns label_selector) := by
    intro s r m q hq0 hm0
    unfold _select_pods
    rw [if_neg (not_lt.mpr hq0), if_neg (not_not_intro hm0), if_neg (not_not_intro ho)]
    rfl
  exact ⟨base sampler rand mode qty hq hm,
    (base sampler rand mode qty hq hm).trans (base sampler' rand' mode' qty' hq' hm').symm⟩

/-- Witness for C7 at a concrete input. -/
theorem C7_all_overrides_witness :
    _select_pods (fun l k => l.take k) none none true false "fixed" 1 "default" "oldest"
        [mkPod "b" 2 none, mkPod "a" 1 none]
      = (.ok (orderPods "oldest" (filterByName none [mkPod "b" 2 none, mkPod "a" 1 none])),
         fetchCalls "default" none)
    ∧ _select_pods (fun l k => l.take k) none none true false "fixed" 1 "default" "oldest"
        [mkPod "b" 2 none, mkPod "a" 1 none]
      = _select_pods (fun l _ => l) none none true true "percentage" 50 "default" "oldest"
          [mkPod "b" 2 none, mkPod "a" 1 none] :=
  C7_all_overrides (fun l k => l.take k) (fun l _ => l) none none false true "fixed"
    "percentage" 1 50 "default" "oldest" [mkPod "b" 2 none, mkPod "a" 1 none]
    (by norm_num) (by norm_num) (by decide) (by decide) (by decide)

theorem filterByName_nil (name_pattern : Option Regex) : filterByName name_pattern [] = [] := by
  cases name_pattern <;> rfl

theorem orderPods_nil (order : String) : orderPods order [] = [] := by
  unfold orderPods
  split <;> rfl

/-- On an empty candidate list, the quantity stage returns the empty list
(for a sampler honouring `random.sample`'s length guarantee). -/
theorem applyQuantity_nil (sampler : List Pod → Nat → List Pod)
    (hlen : ∀ l k, k ≤ l.length → (sampler l k).length = k)
    (rand : Bool) (mode : String) {qty : Int} (hq : 0 ≤ qty) :
    applyQuantity sampler rand mode qty [] = [] := by
  have h0 : 0 ≤ resolvedQty mode qty 0 := resolvedQty_nonneg mode 0 hq
  have hmin : min (resolvedQty mode qty ([] : List Pod).length)
      ((([] : List Pod).length : Nat) : Int) = 0 := min_eq_right h0
  unfold applyQuantity
  cases rand
  · simp
  · simp only [if_true]
    rw [hmin]
    exact List.length_eq_zero.mp (hlen [] 0 (Nat.le_refl 0))

/-- If every fetched deployment has its available replicas equal to its
desired replicas, the probe's loop accepts. -/
theorem checkReplicas_ok (name : String) :
    ∀ ds : List Deployment,
      (∀ d ∈ ds, d.status.availableReplicas = d.spec.replicas) →
      checkReplicas name ds = .ok true
  | [], _ => rfl
  | d :: rest, h => by
    rw [checkReplicas, if_neg (not_not_intro (h d (List.mem_cons_self d rest)))]
    exact checkReplicas_ok name rest (fun x hx => h x (List.mem_cons_of_mem d hx))

/-- If any fetched deployment has a replica mismatch, the probe's loop
raises the "not healthy" failure. -/
theorem checkReplicas_error (name : String) :
    ∀ (ds : List Deployment) (d : Deployment), d ∈ ds →
      d.status.availableReplicas ≠ d.spec.replicas →
      checkReplicas name ds = .error ("deployment '" ++ name ++ "' is not healthy")
  | [], d, h, _ => absurd h (List.not_mem_nil d)
  | e :: rest, d, h, hne => by
    by_cases he : e.status.availableReplicas ≠ e.spec.replicas
    · rw [checkReplicas, if_pos he]
    · rw [checkReplicas, if_neg he]
      have hrest : d ∈ rest := by
        rcases List.mem_cons.mp h with rfl | hm
        · exact absurd hne he
        · exact hm
      exact checkReplicas_error name rest d hrest hne

/-- C9: the deployment health probe raises ActivityFailed when zero
deployments match, and when any matched deployment's available replica
count differs from its desired count, returning `True` only otherwise;
the pod selector instead returns the empty list as a valid, non-error
outcome when zero pods match. -/
theorem C9_probe_strict_selector_lenient :
    (∀ name : String,
        deployment_available_and_healthy name []
          = .error ("deployment '" ++ name ++ "' was not found"))
    ∧ (∀ (name : String) (ds : List Deployment), ds ≠ [] →
        (∀ d ∈ ds, d.status.availableReplicas = d.spec.replicas) →
        deployment_available_and_healthy name ds = .ok true)
    ∧ (∀ (name : String) (ds : List Deployment) (d : Deployment), d ∈ ds →
        d.status.availableReplicas ≠ d.spec.replicas →
        deployment_available_and_healthy name ds
          = .error ("deployment '" ++ name ++ "' is not healthy"))
    ∧ (∀ (sampler : List Pod → Nat → List Pod) (label_selector : Option String)
        (name_pattern : Option Regex) (all rand : Bool) (mode : String) (qty : Int)
        (ns order : String),
        (∀ l k, k ≤ l.length → (sampler l k).length = k) →
        0 ≤ qty → mode ∈ (["fixed", "percentage"] : List String) →
        order ∈ (["alphabetic", "oldest"] : List String) →
        (_select_pods sampler label_selector name_pattern all rand mode qty ns order []).1
          = .ok []) := by
  refine ⟨fun name => rfl, ?_, ?_, ?_⟩
  · intro name ds hne hall
    rw [deployment_available_and_healthy, if_neg (by simpa using hne)]
    exact checkReplicas_ok name ds hall
  · intro name ds d hmem hne
    have hds : ¬ ds.isEmpty = true := by
      cases ds
      · exact absurd hmem (List.not_mem_nil d)
      · simp
    rw [deployment_available_and_healthy, if_neg hds]
    exact checkReplicas_error name ds d hmem hne
  · intro sampler label_selector name_pattern all rand mode qty ns order hlen hq hm ho
    unfold _select_pods
    rw [if_neg (not_lt.mpr hq), if_neg (not_not_intro hm), if_neg (not_not_intro ho)]
    cases all
    · show (Except.ok (applyQuantity sampler rand mode qty
          (orderPods order (filterByName name_pattern []))), _).1 = _
      rw [filterByName_nil, orderPods_nil, applyQuantity_nil sampler hlen rand mode hq]
    · show (Except.ok (orderPods order (filterByName name_pattern [])), _).1 = _
      rw [filterByName_nil, orderPods_nil]

/-- Witness for C9 at concrete inputs. -/
theorem C9_probe_witness :
    deployment_available_and_healthy "app" [⟨⟨some 3⟩, ⟨some 2⟩⟩]
      = .error ("deployment '" ++ "app" ++ "' is not healthy")
    ∧ deployment_available_and_healthy "app" [⟨⟨some 3⟩, ⟨some 3⟩⟩] = .ok true
    ∧ (_select_pods (fun l k => l.take k) none none false false "fixed" 1
        "default" "alphabetic" []).1 = .ok [] :=
  ⟨C9_probe_strict_selector_lenient.2.2.1 "app" [⟨⟨some 3⟩, ⟨some 2⟩⟩] ⟨⟨some 3⟩, ⟨some 2⟩⟩
      (List.mem_singleton.mpr rfl) (by decide),
   C9_probe_strict_selector_lenient.2.1 "app" [⟨⟨some 3⟩, ⟨some 3⟩⟩] (by simp)
      (by intro d hd; rw [List.mem_singleton.mp hd]),
   C9_probe_strict_selector_lenient.2.2.2 (fun l k => l.take k) none none false false
      "fixed" 1 "default" "alphabetic"
      (fun l k hk => by rw [List.length_take]; exact Nat.min_eq_left hk)
      (by norm_num) (by decide) (by decide)⟩

/-- C10: a percentage quantity above 100 raises no validation error; the
resolved quantity is capped at the candidate count, so (deterministic
sampling) the result equals selecting every filtered candidate. -/
theorem C10_percentage_above_100 (sampler : List Pod → Nat → List Pod)
    (label_selector : Option String) (name_pattern : Option Regex)
    (ns order : String) (fetched : List Pod) (q : Int)
    (hq : 100 < q)
    (ho : order ∈ (["alphabetic", "oldest"] : List String)) :
    min (resolvedQty "percentage" q
          (orderPods order (filterByName name_pattern fetched)).length)
        ((orderPods order (filterByName name_pattern fetched)).length : Int)
      = ((orderPods order (filterByName name_pattern fetched)).length : Int)
    ∧ _select_pods sampler label_selector name_pattern false false "percentage" q ns order
        fetched
      = (.ok (orderPods order (filterByName name_pattern fetched)),
         fetchCalls ns label_selector)
    ∧ (∀ rand,
        ∃ out, (_select_pods sampler label_selector name_pattern false rand "percentage" q
            ns order fetched).1 = .ok out) := by
  have hcap : ∀ n : Nat, min (resolvedQty "percentage" q n) (n : Int) = (n : Int) := by
    intro n
    refine min_eq_right ?_
    rw [resolvedQty, if_pos rfl]
    exact le_mathCeil100 (by nlinarith [Int.ofNat_nonneg n])
  have hguards : ∀ (r : Bool),
      _select_pods sampler label_selector name_pattern false r "percentage" q ns order fetched
        = (.ok (applyQuantity sampler r "percentage" q
             (orderPods order (filterByName name_pattern fetched))),
           fetchCalls ns label_selector) := by
    intro r
    unfold _select_pods
    rw [if_neg (not_lt.mpr (by omega)), if_neg (not_not_intro (by decide)),
      if_neg (not_not_intro ho)]
    rfl
  refine ⟨hcap _, ?_, fun rand => ⟨_, by rw [hguards rand]⟩⟩
  rw [hguards false]
  unfold applyQuantity
  simp only [Bool.false_eq_true, if_false]
  rw [hcap]
  simp [List.take_length]

/-- Witness for C10 at a concrete input (`q = 150`, three candidates). -/
theorem C10_percentage_above_100_witness :
    min (resolvedQty "percentage" 150
          (orderPods "alphabetic" (filterByName none [podNamed "a", podNamed "b", podNamed "c"])).length)
        ((orderPods "alphabetic" (filterByName none [podNamed "a", podNamed "b", podNamed "c"])).length : Int)
      = ((orderPods "alphabetic" (filterByName none [podNamed "a", podNamed "b", podNamed "c"])).length : Int)
    ∧ _select_pods (fun l k => l.take k) none none false false "percentage" 150 "default"
        "alphabetic" [podNamed "a", podNamed "b", podNamed "c"]
      = (.ok (orderPods "alphabetic" (filterByName none [podNamed "a", podNamed "b", podNamed "c"])),
         fetchCalls "default" none)
    ∧ (∀ rand,
        ∃ out, (_select_pods (fun l k => l.take k) none none false rand "percentage" 150
            "default" "alphabetic" [podNamed "a", podNamed "b", podNamed "c"]).1 = .ok out) :=
  C10_percentage_above_100 (fun l k => l.take k) none none "default" "alphabetic"
    [podNamed "a", podNamed "b", podNamed "c"] 150 (by norm_num) (by decide)

/-- Witness for C4 at a concrete invalid input (`qty = -1`). -/
theorem C4_validation_witness :
    (∃ msg, _select_pods (fun l k => l.take k) none none false false "fixed" (-1)
        "default" "alphabetic" [] = (.error msg, []))
    ∧ (∃ msg, terminate_pods (fun l k => l.take k) none none false false "fixed" (-1) 0
        "default" "alphabetic" [] = (.error msg, []))
    ∧ (∃ msg, kill_main_process (fun c => c.name) (fun l k => l.take k) none none false false
        "fixed" (-1) "default" "alphabetic" "app" "SIGTERM" "img" [] = (.error msg, [])) :=
  C4_validation_before_any_call (fun l k => l.take k) none none false false "fixed" (-1) 0
    "default" "alphabetic" (fun c => c.name) "app" "SIGTERM" "img" []
    (Or.inl (by norm_num))

/-- C6: the name filter retains exactly the candidates whose name matches
the pattern anchored at position 0; for a plain-text pattern this is a
prefix test (not a full-string match, not a substring search), so pattern
`"web"` against `["web-1", "notweb"]` keeps only `"web-1"`; with no
pattern the candidate list passes through unchanged and in order. -/
theorem C6_name_filter_anchored_prefix :
    (∀ (pattern : Regex) (items : List Pod),
        filterByName (some pattern) items
          = items.filter (fun p => pattern.matchAtStart p.metadata.name.data))
    ∧ (∀ (w s : String),
        (Regex.literal w).matchAtStart s.data = w.data.isPrefixOf s.data)
    ∧ filterByName (some (Regex.literal "web"))
        [podNamed "web-1", podNamed "notweb"] = [podNamed "web-1"]
    ∧ (Regex.literal "web").matchAtStart "web-1".data = true
    ∧ (∀ items : List Pod, filterByName none items = items) :=
  ⟨fun _ _ => rfl,
   fun w s => matchAtStart_literalList w.data s.data,
   by decide,
   by decide,
   fun _ => rfl⟩

/-- C8: with `order = oldest` the ordered sequence is a permutation of the
input that is non-decreasing in `creationTimestamp`, and candidates with
equal `creationTimestamp` keep their original relative (fetch) order; with
`order = alphabetic` the sequence is left exactly in fetch order. -/
theorem C8_orderer_stable_sort :
    (∀ pods : List Pod,
        (orderPods "oldest" pods).Perm pods
        ∧ List.Sorted byCreation (orderPods "oldest" pods)
        ∧ ∀ t : Nat,
            (orderPods "oldest" pods).filter (fun p => _sort_by_pod_creation_timestamp p == t)
              = pods.filter (fun p => _sort_by_pod_creation_timestamp p == t))
    ∧ (∀ pods : List Pod, orderPods "alphabetic" pods = pods) := by
  constructor
  · intro pods
    refine ⟨?_, ?_, ?_⟩
    · simpa [orderPods] using List.perm_insertionSort byCreation pods
    · simpa [orderPods] using List.sorted_insertionSort byCreation pods
    · intro t
      simpa [orderPods] using filter_ts_insertionSort t pods
  · intro pods
    rw [orderPods, if_neg (by decide)]

/-! ## The kill-main-process dispatch loop -/

theorem pumbaLoop_length (objStr : V1Container → String) (signal pumba_image ns : String) :
    ∀ (pods : List Pod) (i : Nat) (cvar : ContainerVar),
      (pumbaLoop objStr signal pumba_image ns i cvar pods).length = pods.length
  | [], _, _ => rfl
  | _ :: rest, i, cvar => by
    rw [pumbaLoop, List.length_cons, List.length_cons,
      pumbaLoop_length objStr signal pumba_image ns rest (i + 1) _]

/-- The names of the pods created by the loop are `pumba-pod-<i>`,
`pumba-pod-<i+1>`, ... in order. -/
theorem pumbaLoop_names (objStr : V1Container → String) (signal pumba_image ns : String) :
    ∀ (pods : List Pod) (i : Nat) (cvar : ContainerVar),
      (pumbaLoop objStr signal pumba_image ns i cvar pods).map callPodName
        = (List.range pods.length).map (fun j => "pumba-pod-" ++ toString (i + j))
  | [], _, _ => rfl
  | _ :: rest, i, cvar => by
    rw [pumbaLoop, List.map_cons,
      pumbaLoop_names objStr signal pumba_image ns rest (i + 1) _,
      List.length_cons, List.range_succ_eq_map, List.map_cons, List.map_map]
    refine congrArg₂ List.cons (by simp [callPodName, companionPod]) ?_
    refine List.map_congr_left fun j _ => ?_
    simp only [Function.comp_apply]
    congr 2
    omega

/-- Every pod created by the loop has a spec whose `nodeName` is `none`. -/
theorem pumbaLoop_spec_nodeName (objStr : V1Container → String)
    (signal pumba_image ns : String) :
    ∀ (pods : List Pod) (i : Nat) (cvar : ContainerVar) (c : ClusterCall),
      c ∈ pumbaLoop objStr signal pumba_image ns i cvar pods →
      ∀ p : V1Pod, c = ClusterCall.createPod ns p →
        ∃ sp, p.spec = some sp ∧ sp.nodeName = none
  | [], _, _, c, hc => absurd hc (List.not_mem_nil c)
  | pod :: rest, i, cvar, c, hc => by
    rcases List.mem_cons.mp hc with rfl | hm
    · intro p hp
      injection hp with _ h2
      exact ⟨_, congrArg V1Pod.spec h2.symm, rfl⟩
    · exact pumbaLoop_spec_nodeName objStr signal pumba_image ns rest (i + 1) _ c hm

/-- Every selected pod gets a companion create call in the loop. -/
theorem pumbaLoop_mem_companion (objStr : V1Container → String)
    (signal pumba_image ns : String) :
    ∀ (pods : List Pod) (i : Nat) (cvar : ContainerVar) (pod : Pod), pod ∈ pods →
      ∃ j cv, ClusterCall.createPod ns (companionPod objStr signal pumba_image ns j cv pod)
          ∈ pumbaLoop objStr signal pumba_image ns i cvar pods
  | [], _, _, pod, h => absurd h (List.not_mem_nil pod)
  | q :: rest, i, cvar, pod, h => by
    rcases List.mem_cons.mp h with rfl | hm
    · exact ⟨i, cvar, List.mem_cons_self _ _⟩
    · obtain ⟨j, cv, hj⟩ := pumbaLoop_mem_companion objStr signal pumba_image ns rest (i + 1)
        (ContainerVar.ofObj (builtContainer objStr signal pumba_image ns q)) pod hm
      exact ⟨j, cv, List.mem_cons_of_mem _ hj⟩

/-- Two well-formed match strings with the same pod name and namespace are
equal only if their container parts are. -/
theorem argString_ne (X Y p ns : String) (h : X ≠ Y) :
    "re2:^k8s_" ++ X ++ "_" ++ p ++ "_" ++ ns
      ≠ "re2:^k8s_" ++ Y ++ "_" ++ p ++ "_" ++ ns := by
  intro he
  apply h
  have hd := congrArg String.data he
  simp only [String.data_append, List.append_assoc] at hd
  exact String.ext (List.append_cancel_right (List.append_cancel_left hd))

/-- C2 (divergence from the claim): each selected pod's companion carries
an agent command whose container-match argument is
`re2:^k8s_<str(V1Container object)>_<podName>_<ns>` — the local
`container` variable was rebound at line 89 to the `V1Container` object
before line 93 formats it — not
`re2:^k8s_<container parameter>_<podName>_<ns>`; whenever `str()` of that
object differs from the parameter, the emitted string differs from the
documented one. -/
theorem C2_container_argument_uses_rebound_object
    (objStr : V1Container → String) (container signal pumba_image ns : String)
    (pod : Pod)
    (hne : objStr (pumbaContainerAtFormat pumba_image) ≠ container) :
    (∀ (pods : List Pod) (i : Nat) (cvar : ContainerVar), pod ∈ pods →
        ∃ j cv, ClusterCall.createPod ns (companionPod objStr signal pumba_image ns j cv pod)
            ∈ pumbaLoop objStr signal pumba_image ns i cvar pods)
    ∧ (∀ (j : Nat) (cv : ContainerVar),
        (companionPod objStr signal pumba_image ns j cv pod).spec
          = some { containers := [builtContainer objStr signal pumba_image ns pod],
                   restartPolicy := some "Never",
                   volumes := some [⟨"dockersocket", ⟨"/var/run/docker.sock"⟩⟩],
                   nodeName := none })
    ∧ (builtContainer objStr signal pumba_image ns pod).args
        = some ["--log-level", "debug", "kill", "--signal", signal,
                "re2:^k8s_" ++ objStr (pumbaContainerAtFormat pumba_image) ++ "_"
                  ++ pod.metadata.name ++ "_" ++ ns]
    ∧ companionArgString objStr pumba_image ns pod
        ≠ "re2:^k8s_" ++ container ++ "_" ++ pod.metadata.name ++ "_" ++ ns := by
  refine ⟨fun pods i cvar hmem =>
      pumbaLoop_mem_companion objStr signal pumba_image ns pods i cvar pod hmem,
    fun j cv => rfl, rfl, ?_⟩
  show "re2:^k8s_" ++ objStr (pumbaContainerAtFormat pumba_image) ++ "_"
      ++ pod.metadata.name ++ "_" ++ ns ≠ _
  exact argString_ne _ _ _ _ hne

/-- Witness for C2 with a concrete `str()` model and container parameter
`"app"`: the emitted match string is not the documented one. -/
theorem C2_container_argument_witness :
    (builtContainer (fun c => "V1Container(name=" ++ c.name ++ ")") "SIGTERM" "img" "default"
        (podNamed "mypod")).args
      = some ["--log-level", "debug", "kill", "--signal", "SIGTERM",
              "re2:^k8s_"
                ++ (fun c : V1Container => "V1Container(name=" ++ c.name ++ ")")
                    (pumbaContainerAtFormat "img")
                ++ "_" ++ (podNamed "mypod").metadata.name ++ "_" ++ "default"]
    ∧ companionArgString (fun c => "V1Container(name=" ++ c.name ++ ")") "img" "default"
        (podNamed "mypod")
      ≠ "re2:^k8s_" ++ "app" ++ "_" ++ (podNamed "mypod").metadata.name ++ "_" ++ "default" :=
  ⟨(C2_container_argument_uses_rebound_object
      (fun c => "V1Container(name=" ++ c.name ++ ")") "app" "SIGTERM" "img" "default"
      (podNamed "mypod") (by decide)).2.2.1,
   (C2_container_argument_uses_rebound_object
      (fun c => "V1Container(name=" ++ c.name ++ ")") "app" "SIGTERM" "img" "default"
      (podNamed "mypod") (by decide)).2.2.2⟩

/-- C3 (divergence from the claim): against k selected units the loop
issues exactly k create calls with pairwise distinct companion names
`pumba-pod-0`, `pumba-pod-1`, ..., but every companion's pod spec carries
`nodeName = none` — line 88 writes the target's node into a dynamic
attribute the manifest does not carry — so companions are not scheduled
on their targets' nodes. -/
theorem C3_companion_count_names_no_node_affinity :
    (∀ (objStr : V1Container → String) (container signal pumba_image ns : String)
        (pods : List Pod),
        (kill_main_process_calls objStr container signal pumba_image ns pods).length
          = pods.length)
    ∧ (∀ (objStr : V1Container → String) (container signal pumba_image ns : String)
        (pods : List Pod),
        (kill_main_process_calls objStr container signal pumba_image ns pods).map callPodName
          = (List.range pods.length).map (fun j => "pumba-pod-" ++ toString j))
    ∧ (∀ (objStr : V1Container → String) (container signal pumba_image ns : String)
        (pods : List Pod) (c : ClusterCall),
        c ∈ kill_main_process_calls objStr container signal pumba_image ns pods →
        ∀ p : V1Pod, c = ClusterCall.createPod ns p →
          ∃ sp, p.spec = some sp ∧ sp.nodeName = none)
    ∧ (kill_main_process_calls (fun c => c.name) "app" "SIGTERM" "img" "default"
          [mkPod "p1" 5 (some "node-a"), mkPod "p2" 7 (some "node-b")]).map callPodName
        = ["pumba-pod-0", "pumba-pod-1"]
    ∧ ("pumba-pod-0" : String) ≠ "pumba-pod-1"
    ∧ (kill_main_process_calls (fun c => c.name) "app" "SIGTERM" "img" "default"
          [mkPod "p1" 5 (some "node-a"), mkPod "p2" 7 (some "node-b")]).map callSpecNodeName
        = [some none, some none]
    ∧ (mkPod "p1" 5 (some "node-a")).spec.nodeName = some "node-a" := by
  refine ⟨?_, ?_, ?_, by decide, by decide, by decide, rfl⟩
  · intro objStr container signal pumba_image ns pods
    exact pumbaLoop_length objStr signal pumba_image ns pods 0 _
  · intro objStr container signal pumba_image ns pods
    rw [kill_main_process_calls, pumbaLoop_names objStr signal pumba_image ns pods 0 _]
    exact List.map_congr_left fun j _ => by rw [Nat.zero_add]
  · intro objStr container signal pumba_image ns pods c hc
    exact pumbaLoop_spec_nodeName objStr signal pumba_image ns pods 0 _ c hc

/-- Witness for C3 at a concrete create call. -/
theorem C3_companion_witness :
    ∃ sp,
      (companionPod (fun c : V1Container => c.name) "SIGTERM" "img" "default" 0
          (ContainerVar.ofString "app") (mkPod "p1" 5 (some "node-a"))).spec = some sp
      ∧ sp.nodeName = none :=
  C3_companion_count_names_no_node_affinity.2.2.1 (fun c => c.name) "app" "SIGTERM" "img"
    "default" [mkPod "p1" 5 (some "node-a")]
    (ClusterCall.createPod "default"
      (companionPod (fun c : V1Container => c.name) "SIGTERM" "img" "default" 0
        (ContainerVar.ofString "app") (mkPod "p1" 5 (some "node-a"))))
    (by decide) _ rfl

end ChaosK8s
